import Mathlib

/-!
Shallow embedding of `src/script.js`, the page-interaction controller of a
static portfolio page.  DOM observations become explicit record fields,
DOM-mutating handlers become state-transforming functions, and the timer
machinery (debounce, delayed animation kickoff) becomes an explicit
denotation over chronologically ordered event lists.
-/

namespace Portfolio

/-- One `<section>` element as `updateActiveNavLink` observes it:
its `id` attribute, its `offsetTop` and its `clientHeight` (pixels). -/
structure Section where
  id : String
  offsetTop : Int
  clientHeight : Int
deriving DecidableEq, Repr

/-- One `.nav-link` element: its `href` attribute and whether it currently
carries the CSS class `active`. -/
structure NavLink where
  href : String
  active : Bool
deriving DecidableEq, Repr

/-- The guard of `updateActiveNavLink`'s section loop:
`scrollY >= sectionTop && scrollY < sectionTop + sectionHeight` with
`sectionTop = section.offsetTop - 100` and `sectionHeight = section.clientHeight`. -/
def sectionMatches (scrollY : Int) (s : Section) : Bool :=
  decide (s.offsetTop - 100 ≤ scrollY) && decide (scrollY < s.offsetTop - 100 + s.clientHeight)

/-- The `sections.forEach` loop of `updateActiveNavLink`: starting from
`current = ''`, every matching section overwrites `current` with its id. -/
def currentId (scrollY : Int) (sections : List Section) : String :=
  sections.foldl (fun cur s => if sectionMatches scrollY s then s.id else cur) ""

/-- `updateActiveNavLink` (src/script.js lines 45-63): compute `current`,
then for every nav link remove `active` and re-add it exactly when the
link's `href` equals `'#' ++ current`. -/
def updateActiveNavLink (scrollY : Int) (sections : List Section)
    (links : List NavLink) : List NavLink :=
  let current := currentId scrollY sections
  links.map (fun l => { l with active := l.href == "#" ++ current })

/-- The three DOM representations of the mobile-menu state that
`toggleMobileMenu` / `closeMobileMenu` read and write: the string value of
`aria-expanded` on `.menu-toggle`, presence of the CSS class `active` on
`.nav-links`, and `document.body.style.overflow`. -/
structure MenuState where
  ariaExpanded : String
  menuActive : Bool
  bodyOverflow : String
deriving DecidableEq, Repr

/-- `toggleMobileMenu` (src/script.js lines 68-75): read the expanded
boolean from `aria-expanded === 'true'`, write back the stringified
negation, toggle the class, and set `overflow` to `''` when collapsing
and `'hidden'` when expanding. -/
def toggleMobileMenu (s : MenuState) : MenuState :=
  let isExpanded := s.ariaExpanded == "true"
  { ariaExpanded := if isExpanded then "false" else "true"
    menuActive := !s.menuActive
    bodyOverflow := if isExpanded then "" else "hidden" }

/-- `closeMobileMenu` (src/script.js lines 80-84): unconditionally set
`aria-expanded='false'`, remove the class, clear the overflow lock. -/
def closeMobileMenu (_s : MenuState) : MenuState :=
  { ariaExpanded := "false", menuActive := false, bodyOverflow := "" }

/-- The outside-click listener (src/script.js lines 170-176): when the click
target is in neither the menu container nor the toggle and the menu is open,
close it. -/
def outsideClickHandler (inMenu onToggle : Bool) (s : MenuState) : MenuState :=
  if !inMenu && !onToggle && s.menuActive then closeMobileMenu s else s

/-- The keydown listener (src/script.js lines 179-183): Escape while the
menu is open closes it. -/
def escKeyHandler (key : String) (s : MenuState) : MenuState :=
  if key == "Escape" && s.menuActive then closeMobileMenu s else s

/-- Body of the debounced resize listener (src/script.js lines 186-190):
when the settled viewport width exceeds 768, force-close the menu. -/
def resizeHandler (width : Int) (s : MenuState) : MenuState :=
  if width > 768 then closeMobileMenu s else s

/-- The click listener on `.menu-toggle` (src/script.js line 166) just
invokes `toggleMobileMenu`. -/
def menuToggleClickHandler (s : MenuState) : MenuState :=
  toggleMobileMenu s

/-- The two redundant representations of the expanded boolean agree:
the `aria-expanded` attribute spells `true` exactly when the container
carries the `active` class. -/
def menuAgrees (s : MenuState) : Prop :=
  (s.ariaExpanded = "true") ↔ (s.menuActive = true)

instance (s : MenuState) : Decidable (menuAgrees s) := by
  unfold menuAgrees; infer_instance

/-- A menu state whose attribute is a genuine stringified boolean and
whose overflow lock matches the expanded boolean; every state the page
reaches from the initial collapsed state is of this shape. -/
def MenuState.wf (s : MenuState) : Prop :=
  (s.ariaExpanded = "true" ∨ s.ariaExpanded = "false") ∧
    s.bodyOverflow = (if s.ariaExpanded = "true" then "hidden" else "")

instance (s : MenuState) : Decidable s.wf := by
  unfold MenuState.wf; infer_instance

/-- An element eligible for the scroll-reveal animation, as `animateOnScroll`
observes it: its bounding rect (`getBoundingClientRect().top` / `.bottom`,
viewport pixels), whether it carries the CSS class `animated`, and its
inline styles. -/
structure AnimElem where
  rectTop : ℚ
  rectBottom : ℚ
  animated : Bool
  opacity : String
  transform : String
  transition : String
deriving DecidableEq, Repr

/-- `isInViewport` (src/script.js lines 33-39):
`rect.top <= innerHeight * 0.8 && rect.bottom >= 0`, with the literal `0.8`
as the rational 4/5. -/
def isInViewport (innerHeight : ℚ) (e : AnimElem) : Bool :=
  decide (e.rectTop ≤ innerHeight * (4 / 5)) && decide (0 ≤ e.rectBottom)

/-- The synchronous part of `animateOnScroll`'s per-element body
(src/script.js lines 94-97): an element in the viewport and not yet marked
gets the `animated` class and its pre-animation inline styles at once. -/
def animateElem (innerHeight : ℚ) (e : AnimElem) : AnimElem :=
  if isInViewport innerHeight e && !e.animated then
    { e with animated := true, opacity := "0", transform := "translateY(20px)" }
  else e

/-- The element indices (counting from `k`) for which the sweep schedules
the 100ms `setTimeout` transition callback — exactly the elements whose
guard `isInViewport && !animated` held. -/
def newTimers (innerHeight : ℚ) (k : Nat) : List AnimElem → List Nat
  | [] => []
  | e :: rest =>
    if isInViewport innerHeight e && !e.animated then
      k :: newTimers innerHeight (k + 1) rest
    else newTimers innerHeight (k + 1) rest

/-- The animation state: the candidate elements (the four decorative
marker classes, in document order) and the queue of pending 100ms
transition timers, as element indices in scheduling order. -/
structure AnimState where
  elems : List AnimElem
  pending : List Nat
deriving DecidableEq, Repr

/-- One invocation of `animateOnScroll` (src/script.js lines 90-107):
sweep all candidate elements, marking each unanimated visible element
synchronously and scheduling its 100ms transition timer. -/
def animateOnScroll (innerHeight : ℚ) (s : AnimState) : AnimState :=
  { elems := s.elems.map (animateElem innerHeight)
    pending := s.pending ++ newTimers innerHeight 0 s.elems }

/-- The delayed `setTimeout` callback body (src/script.js lines 100-104). -/
def applyTransition (e : AnimElem) : AnimElem :=
  { e with transition := "opacity 0.6s ease, transform 0.6s ease"
           opacity := "1"
           transform := "translateY(0)" }

/-- Firing the oldest pending transition timer. -/
def fireTimer (s : AnimState) : AnimState :=
  match s.pending with
  | [] => s
  | i :: rest =>
    match s.elems.get? i with
    | some e => { elems := s.elems.set i (applyTransition e), pending := rest }
    | none => { s with pending := rest }

/-- An element `document.querySelector` can resolve an in-page fragment to:
its `id` attribute and its `offsetTop`. -/
structure Target where
  id : String
  offsetTop : Int
deriving DecidableEq, Repr

/-- The static page data the anchor-click handler reads: the
fragment-addressable elements in document order, and `navbar.offsetHeight`. -/
structure PageDoc where
  targets : List Target
  navbarHeight : Int
deriving DecidableEq, Repr

/-- `document.querySelector(href)` for a fragment selector `#id`: the first
element in document order whose id the fragment names. -/
def querySelectorFragment (doc : PageDoc) (href : String) : Option Target :=
  doc.targets.find? (fun t => "#" ++ t.id == href)

/-- The page state the anchor-click handler can mutate: the scroll
position, the URL fragment, and the mobile-menu state. -/
structure PageState where
  scrollTop : Int
  urlFragment : String
  menu : MenuState
deriving DecidableEq, Repr

/-- The click listener `initSmoothScrolling` installs on every anchor
matching `a[href^="#"]` (src/script.js lines 122-152), as a function of the
anchor's `href`; the boolean records whether `e.preventDefault()` ran.
`href === '#'` returns before `preventDefault`; otherwise the default is
prevented, and only when the target exists does the handler close the
menu, scroll to `offsetTop - navbarHeight`, and — except for `'#home'` —
push the fragment onto the URL. -/
def anchorClickHandler (doc : PageDoc) (href : String) (st : PageState) :
    PageState × Bool :=
  if href == "#" then (st, false)
  else
    match querySelectorFragment doc href with
    | none => (st, true)
    | some target =>
      ({ scrollTop := target.offsetTop - doc.navbarHeight
         urlFragment := if href != "#home" then href else st.urlFragment
         menu := closeMobileMenu st.menu }, true)

/-- Denotation of `debounce` (src/script.js lines 16-26) on a chronological
list of calls `(time, args)`: every call `clearTimeout`s the pending timer
and `setTimeout`s the wrapped function for `wait` later, so a call's timer
survives exactly when no further call arrives before it fires; the result
lists the executions of the wrapped function as `(fire time, args)`, in
order. -/
def debRun {α : Type} (wait : Nat) : List (Nat × α) → List (Nat × α)
  | [] => []
  | [(t, a)] => [(t + wait, a)]
  | (t, a) :: (u, b) :: rest =>
    if t + wait ≤ u then (t + wait, a) :: debRun wait ((u, b) :: rest)
    else debRun wait ((u, b) :: rest)

/-- The debounced resize pipeline (src/script.js lines 186-190): resize
events carry `window.innerWidth`; the 250ms trailing debounce filters them,
and each surviving execution runs the resize listener body on the width
current when it fires (for the last execution, the settled width). -/
def resizePipeline (events : List (Nat × Int)) (m : MenuState) : MenuState :=
  (debRun 250 events).foldl (fun s e => resizeHandler e.2 s) m

end Portfolio

namespace Portfolio

/-- The `forEach`-with-accumulator in `updateActiveNavLink` computes the id
of the last matching section (document order), keeping the accumulator when
nothing matches. -/
theorem currentId_foldl (scrollY : Int) (sections : List Section) (a : String) :
    sections.foldl (fun cur s => if sectionMatches scrollY s then s.id else cur) a
      = ((sections.filter (sectionMatches scrollY)).getLast?.map Section.id).getD a := by
  induction sections generalizing a with
  | nil => rfl
  | cons s rest ih =>
    simp only [List.foldl_cons, List.filter_cons]
    by_cases hm : sectionMatches scrollY s
    · simp only [hm, if_pos, reduceIte]
      rw [ih]
      cases hrest : rest.filter (sectionMatches scrollY) with
      | nil => simp
      | cons t ts =>
        obtain ⟨x, hx⟩ : ∃ x, (t :: ts).getLast? = some x :=
          ⟨(t :: ts).getLast (by simp), List.getLast?_eq_getLast _ (by simp)⟩
        simp [hx]
    · simp only [hm, reduceIte, Bool.false_eq_true]
      rw [ih]

/-- `currentId` is the id of the last section (in document order) whose
range contains the scroll offset, or the empty string when none does. -/
theorem currentId_eq (scrollY : Int) (sections : List Section) :
    currentId scrollY sections
      = ((sections.filter (sectionMatches scrollY)).getLast?.map Section.id).getD "" :=
  currentId_foldl scrollY sections ""

/-- C1: when the last section (document order) whose range
`[offsetTop - 100, offsetTop - 100 + clientHeight)` contains the scroll
offset is `sec` — in particular when exactly one section's range contains
it — `updateActiveNavLink` leaves exactly one nav link active, and every
active link's href is the fragment of `sec`'s id; overlaps are resolved by
the overwritten `current` variable, so the last match wins. -/
theorem updateActiveNavLink_unique_active (scrollY : Int) (sections : List Section)
    (links : List NavLink) (sec : Section)
    (hsec : (sections.filter (sectionMatches scrollY)).getLast? = some sec)
    (hlink : (links.filter (fun l => l.href == "#" ++ sec.id)).length = 1) :
    ((updateActiveNavLink scrollY sections links).filter (fun l => l.active)).length = 1 ∧
      ∀ l ∈ (updateActiveNavLink scrollY sections links).filter (fun l => l.active),
        l.href = "#" ++ sec.id := by
  have hcur : currentId scrollY sections = sec.id := by
    rw [currentId_eq, hsec]; rfl
  unfold updateActiveNavLink
  rw [hcur]
  constructor
  · rw [List.filter_map, List.length_map]
    rw [← hlink]
    rfl
  · intro l hl
    rw [List.filter_map] at hl
    obtain ⟨l₀, hl₀, rfl⟩ := List.mem_map.1 hl
    have hp := (List.mem_filter.1 hl₀).2
    simpa using hp

/-- C1 witness: a two-section page scrolled inside the first section only. -/
theorem updateActiveNavLink_unique_active_witness :
    (([⟨"home", 0, 500⟩, ⟨"about", 600, 400⟩] : List Section).filter
        (sectionMatches 50)).getLast? = some ⟨"home", 0, 500⟩ ∧
    (([⟨"#home", false⟩, ⟨"#about", true⟩] : List NavLink).filter
        (fun l => l.href == "#" ++ (Section.mk "home" 0 500).id)).length = 1 ∧
    (((updateActiveNavLink 50 [⟨"home", 0, 500⟩, ⟨"about", 600, 400⟩]
          [⟨"#home", false⟩, ⟨"#about", true⟩]).filter (fun l => l.active)).length = 1 ∧
      ∀ l ∈ (updateActiveNavLink 50 [⟨"home", 0, 500⟩, ⟨"about", 600, 400⟩]
          [⟨"#home", false⟩, ⟨"#about", true⟩]).filter (fun l => l.active),
        l.href = "#" ++ (Section.mk "home" 0 500).id) :=
  ⟨by decide, by decide,
    updateActiveNavLink_unique_active 50 _ _ _ (by decide) (by decide)⟩

/-- C2: when no section's range contains the scroll offset and — as the
document contract guarantees — no nav link's href is the bare fragment, the
`current` string stays empty and no link ends up active. -/
theorem updateActiveNavLink_none_active (scrollY : Int) (sections : List Section)
    (links : List NavLink)
    (hno : sections.filter (sectionMatches scrollY) = [])
    (hhash : ∀ l ∈ links, l.href ≠ "#") :
    ∀ l ∈ updateActiveNavLink scrollY sections links, l.active = false := by
  have hcur : currentId scrollY sections = "" := by
    rw [currentId_eq, hno]; rfl
  unfold updateActiveNavLink
  rw [hcur]
  intro l hl
  obtain ⟨l₀, hl₀, rfl⟩ := List.mem_map.1 hl
  have : l₀.href ≠ "#" := hhash l₀ hl₀
  simpa using this

/-- C2 witness: scrolled past every section on a one-section page. -/
theorem updateActiveNavLink_none_active_witness :
    ([⟨"home", 0, 500⟩] : List Section).filter (sectionMatches 9000) = [] ∧
    (∀ l ∈ ([⟨"#home", true⟩] : List NavLink), l.href ≠ "#") ∧
    ∀ l ∈ updateActiveNavLink 9000 [⟨"home", 0, 500⟩] [⟨"#home", true⟩],
      l.active = false :=
  ⟨by decide, by decide,
    updateActiveNavLink_none_active 9000 _ _ (by decide) (by decide)⟩

/-- C3: from any state where the `aria-expanded` attribute and the menu
container's `active` class agree, each operation — `toggleMobileMenu`,
`closeMobileMenu`, and the outside-click, Escape-key, resize and
toggle-click handlers that invoke them — yields a state where they still
agree. -/
theorem menu_agreement_preserved (s : MenuState) (hs : menuAgrees s) :
    menuAgrees (toggleMobileMenu s) ∧ menuAgrees (closeMobileMenu s) ∧
    (∀ a b, menuAgrees (outsideClickHandler a b s)) ∧
    (∀ k, menuAgrees (escKeyHandler k s)) ∧
    (∀ w, menuAgrees (resizeHandler w s)) ∧
    menuAgrees (menuToggleClickHandler s) := by
  have hclose : ∀ t : MenuState, menuAgrees (closeMobileMenu t) := by
    intro t
    simp [menuAgrees, closeMobileMenu]
  have htoggle : menuAgrees (toggleMobileMenu s) := by
    by_cases h : s.ariaExpanded = "true"
    · have hm : s.menuActive = true := hs.1 h
      simp [menuAgrees, toggleMobileMenu, h, hm]
    · have hm : s.menuActive = false := by
        cases hma : s.menuActive with
        | false => rfl
        | true => exact absurd (hs.2 hma) h
      have hb : (s.ariaExpanded == "true") = false := beq_eq_false_iff_ne.2 h
      simp [menuAgrees, toggleMobileMenu, hb, hm]
  refine ⟨htoggle, hclose s, ?_, ?_, ?_, htoggle⟩
  · intro a b
    unfold outsideClickHandler
    split
    · exact hclose s
    · exact hs
  · intro k
    unfold escKeyHandler
    split
    · exact hclose s
    · exact hs
  · intro w
    unfold resizeHandler
    split
    · exact hclose s
    · exact hs

/-- C3 witness: the initial collapsed state. -/
theorem menu_agreement_preserved_witness :
    menuAgrees ⟨"false", false, ""⟩ ∧
    (menuAgrees (toggleMobileMenu ⟨"false", false, ""⟩) ∧
      menuAgrees (closeMobileMenu ⟨"false", false, ""⟩) ∧
      (∀ a b, menuAgrees (outsideClickHandler a b ⟨"false", false, ""⟩)) ∧
      (∀ k, menuAgrees (escKeyHandler k ⟨"false", false, ""⟩)) ∧
      (∀ w, menuAgrees (resizeHandler w ⟨"false", false, ""⟩)) ∧
      menuAgrees (menuToggleClickHandler ⟨"false", false, ""⟩)) :=
  ⟨by decide, menu_agreement_preserved _ (by decide)⟩

/-- C4: `closeMobileMenu` is idempotent — a second invocation yields the
same state as the first, and that state has `aria-expanded='false'`, no
`active` class, and no body scroll lock. -/
theorem closeMobileMenu_idempotent (s : MenuState) :
    closeMobileMenu (closeMobileMenu s) = closeMobileMenu s ∧
    (closeMobileMenu s).ariaExpanded = "false" ∧
    (closeMobileMenu s).menuActive = false ∧
    (closeMobileMenu s).bodyOverflow = "" :=
  ⟨rfl, rfl, rfl, rfl⟩

/-- C5: on every well-formed state (attribute a stringified boolean, scroll
lock matching it — the shape of every state the page reaches),
`toggleMobileMenu` twice restores the state exactly: attribute, class and
scroll-lock all return to their original values. -/
theorem toggleMobileMenu_involutive (s : MenuState) (hs : s.wf) :
    toggleMobileMenu (toggleMobileMenu s) = s := by
  obtain ⟨ha, ho⟩ := hs
  obtain ⟨a, m, o⟩ := s
  cases ha with
  | inl h =>
    simp only at h ho
    subst h
    simp only [if_pos rfl] at ho
    subst ho
    simp [toggleMobileMenu]
  | inr h =>
    simp only at h ho
    subst h
    rw [if_neg (by decide)] at ho
    subst ho
    simp [toggleMobileMenu]

/-- C5 witness: the expanded state. -/
theorem toggleMobileMenu_involutive_witness :
    (MenuState.mk "true" true "hidden").wf ∧
    toggleMobileMenu (toggleMobileMenu ⟨"true", true, "hidden"⟩) =
      ⟨"true", true, "hidden"⟩ :=
  ⟨by decide, toggleMobileMenu_involutive _ (by decide)⟩

/-- Every index the sweep schedules a timer for points at an element whose
guard `isInViewport && !animated` held. -/
theorem mem_newTimers {innerHeight : ℚ} {i k : Nat} {es : List AnimElem}
    (h : i ∈ newTimers innerHeight k es) :
    ∃ j e, es.get? j = some e ∧ i = k + j ∧
      (isInViewport innerHeight e && !e.animated) = true := by
  induction es generalizing k with
  | nil => simp [newTimers] at h
  | cons e rest ih =>
    unfold newTimers at h
    by_cases hc : (isInViewport innerHeight e && !e.animated) = true
    · rw [if_pos hc] at h
      rcases List.mem_cons.1 h with h1 | h2
      · exact ⟨0, e, rfl, by omega, hc⟩
      · obtain ⟨j, e', hj, hi, hc'⟩ := ih h2
        exact ⟨j + 1, e', by simpa using hj, by omega, hc'⟩
    · rw [if_neg hc] at h
      obtain ⟨j, e', hj, hi, hc'⟩ := ih h
      exact ⟨j + 1, e', by simpa using hj, by omega, hc'⟩

/-- C6: an element already carrying the `animated` marker is untouched by
any later `animateOnScroll` invocation: its styles are not reset and no new
transition timer is scheduled for it — even while a previously scheduled
timer for it is still pending (the marker was set synchronously, before the
100ms delay). -/
theorem animateOnScroll_no_retrigger (innerHeight : ℚ) (s : AnimState)
    (i : Nat) (e : AnimElem)
    (hi : s.elems.get? i = some e) (he : e.animated = true) :
    (animateOnScroll innerHeight s).elems.get? i = some e ∧
    (animateOnScroll innerHeight s).pending.count i = s.pending.count i := by
  constructor
  · show (s.elems.map (animateElem innerHeight)).get? i = some e
    rw [List.get?_map, hi]
    simp [animateElem, he]
  · show (s.pending ++ newTimers innerHeight 0 s.elems).count i = s.pending.count i
    rw [List.count_append]
    have hnot : i ∉ newTimers innerHeight 0 s.elems := by
      intro hmem
      obtain ⟨j, e', hj, hij, hc⟩ := mem_newTimers hmem
      have hji : j = i := by omega
      subst hji
      rw [hi] at hj
      cases hj
      simp [he] at hc
    rw [List.count_eq_zero.2 hnot]
    omega

/-- C6 witness: one marked element with its transition timer still
pending; a second sweep changes nothing. -/
theorem animateOnScroll_no_retrigger_witness :
    (AnimState.mk [⟨0, 10, true, "0", "translateY(20px)", ""⟩] [0]).elems.get? 0 =
      some ⟨0, 10, true, "0", "translateY(20px)", ""⟩ ∧
    (AnimElem.mk 0 10 true "0" "translateY(20px)" "").animated = true ∧
    ((animateOnScroll 800 ⟨[⟨0, 10, true, "0", "translateY(20px)", ""⟩], [0]⟩).elems.get? 0 =
        some ⟨0, 10, true, "0", "translateY(20px)", ""⟩ ∧
      (animateOnScroll 800 ⟨[⟨0, 10, true, "0", "translateY(20px)", ""⟩], [0]⟩).pending.count 0 =
        (AnimState.mk [⟨0, 10, true, "0", "translateY(20px)", ""⟩] [0]).pending.count 0) :=
  ⟨by decide, by decide, animateOnScroll_no_retrigger 800 _ 0 _ (by decide) (by decide)⟩

/-- C7: the three anchor-click cases. A click on `href='#'` leaves the
handler without `preventDefault` and changes nothing; a click on `'#home'`
with an existing target scrolls to `offsetTop - navbarHeight` but leaves
the URL fragment unchanged; a click on any other existing in-page target
scrolls the same way and sets the URL fragment to the href. -/
theorem anchorClickHandler_cases (doc : PageDoc) (st : PageState)
    (href : String) (t th : Target)
    (hhome : querySelectorFragment doc "#home" = some th)
    (ht : querySelectorFragment doc href = some t)
    (hne1 : href ≠ "#") (hne2 : href ≠ "#home") :
    anchorClickHandler doc "#" st = (st, false) ∧
    (anchorClickHandler doc "#home" st).1.scrollTop = th.offsetTop - doc.navbarHeight ∧
    (anchorClickHandler doc "#home" st).1.urlFragment = st.urlFragment ∧
    (anchorClickHandler doc href st).1.scrollTop = t.offsetTop - doc.navbarHeight ∧
    (anchorClickHandler doc href st).1.urlFragment = href := by
  have hb1 : (href == "#") = false := beq_eq_false_iff_ne.2 hne1
  have hb2 : (href != "#home") = true := by
    simp [bne, beq_eq_false_iff_ne.2 hne2]
  have hbh : (("#home" : String) == "#") = false := by decide
  have hbh2 : (("#home" : String) != "#home") = false := by decide
  refine ⟨rfl, ?_, ?_, ?_, ?_⟩
  · simp [anchorClickHandler, hbh, hhome]
  · simp [anchorClickHandler, hbh, hbh2, hhome]
  · simp [anchorClickHandler, hb1, ht]
  · simp [anchorClickHandler, hb1, hb2, ht]

/-- C7 witness: a two-target page; clicking `#about` and the special cases. -/
theorem anchorClickHandler_cases_witness :
    querySelectorFragment ⟨[⟨"home", 100⟩, ⟨"about", 700⟩], 60⟩ "#home" =
      some ⟨"home", 100⟩ ∧
    querySelectorFragment ⟨[⟨"home", 100⟩, ⟨"about", 700⟩], 60⟩ "#about" =
      some ⟨"about", 700⟩ ∧
    ("#about" : String) ≠ "#" ∧ ("#about" : String) ≠ "#home" ∧
    (anchorClickHandler ⟨[⟨"home", 100⟩, ⟨"about", 700⟩], 60⟩ "#"
        ⟨0, "", ⟨"true", true, "hidden"⟩⟩ =
      (⟨0, "", ⟨"true", true, "hidden"⟩⟩, false) ∧
     (anchorClickHandler ⟨[⟨"home", 100⟩, ⟨"about", 700⟩], 60⟩ "#home"
        ⟨0, "", ⟨"true", true, "hidden"⟩⟩).1.scrollTop =
      (Target.mk "home" 100).offsetTop - (PageDoc.mk [⟨"home", 100⟩, ⟨"about", 700⟩] 60).navbarHeight ∧
     (anchorClickHandler ⟨[⟨"home", 100⟩, ⟨"about", 700⟩], 60⟩ "#home"
        ⟨0, "", ⟨"true", true, "hidden"⟩⟩).1.urlFragment =
      (PageState.mk 0 "" ⟨"true", true, "hidden"⟩).urlFragment ∧
     (anchorClickHandler ⟨[⟨"home", 100⟩, ⟨"about", 700⟩], 60⟩ "#about"
        ⟨0, "", ⟨"true", true, "hidden"⟩⟩).1.scrollTop =
      (Target.mk "about" 700).offsetTop - (PageDoc.mk [⟨"home", 100⟩, ⟨"about", 700⟩] 60).navbarHeight ∧
     (anchorClickHandler ⟨[⟨"home", 100⟩, ⟨"about", 700⟩], 60⟩ "#about"
        ⟨0, "", ⟨"true", true, "hidden"⟩⟩).1.urlFragment = "#about") :=
  ⟨by decide, by decide, by decide, by decide,
    anchorClickHandler_cases _ _ "#about" _ _ (by decide) (by decide)
      (by decide) (by decide)⟩

/-- C10: clicking an in-page anchor whose target id is absent from the
document prevents the default navigation and changes nothing else: no
scroll, no URL update, and the mobile-menu state is untouched, because
`closeMobileMenu` only runs inside the target-exists branch. -/
theorem anchorClickHandler_missing_target (doc : PageDoc) (st : PageState)
    (href : String) (_hpre : href.data.head? = some '#') (hne : href ≠ "#")
    (hmiss : querySelectorFragment doc href = none) :
    anchorClickHandler doc href st = (st, true) := by
  have hb : (href == "#") = false := beq_eq_false_iff_ne.2 hne
  simp [anchorClickHandler, hb, hmiss]

/-- A nonempty call stream produces at least one execution. -/
theorem debRun_ne_nil {α : Type} (wait : Nat) (l : List (Nat × α)) (h : l ≠ []) :
    debRun wait l ≠ [] := by
  induction l with
  | nil => exact absurd rfl h
  | cons x l ih =>
    cases l with
    | nil =>
      obtain ⟨t, a⟩ := x
      simp [debRun]
    | cons y rest =>
      obtain ⟨t, a⟩ := x
      obtain ⟨u, b⟩ := y
      simp only [debRun]
      by_cases hc : t + wait ≤ u
      · rw [if_pos hc]
        simp
      · rw [if_neg hc]
        exact ih (by simp)

/-- The number of executions never exceeds the number of calls. -/
theorem debRun_length_le {α : Type} (wait : Nat) (l : List (Nat × α)) :
    (debRun wait l).length ≤ l.length := by
  induction l with
  | nil => simp [debRun]
  | cons x l ih =>
    cases l with
    | nil =>
      obtain ⟨t, a⟩ := x
      simp [debRun]
    | cons y rest =>
      obtain ⟨t, a⟩ := x
      obtain ⟨u, b⟩ := y
      simp only [debRun]
      by_cases hc : t + wait ≤ u
      · rw [if_pos hc]
        simpa using ih
      · rw [if_neg hc]
        exact Nat.le_trans ih (by simp)

/-- The last call always executes, `wait` after its arrival, with its own
arguments. -/
theorem debRun_getLast {α : Type} (wait : Nat) (l : List (Nat × α))
    (t : Nat) (a : α) (h : l.getLast? = some (t, a)) :
    (debRun wait l).getLast? = some (t + wait, a) := by
  induction l with
  | nil => simp at h
  | cons x l ih =>
    cases l with
    | nil =>
      obtain ⟨u, b⟩ := x
      simp only [List.getLast?_singleton, Option.some.injEq, Prod.mk.injEq] at h
      obtain ⟨hu, hb⟩ := h
      subst hu
      subst hb
      rfl
    | cons y rest =>
      obtain ⟨u, b⟩ := x
      have hlast : (y :: rest).getLast? = some (t, a) := by
        rw [← List.getLast?_cons_cons]
        exact h
      obtain ⟨v, c⟩ := y
      simp only [debRun]
      by_cases hc : u + wait ≤ v
      · rw [if_pos hc]
        have hne : debRun wait ((v, c) :: rest) ≠ [] :=
          debRun_ne_nil wait _ (by simp)
        cases hd : debRun wait ((v, c) :: rest) with
        | nil => exact absurd hd hne
        | cons z zs =>
          rw [List.getLast?_cons_cons, ← hd]
          exact ih hlast
      · rw [if_neg hc]
        exact ih hlast

/-- Every execution is a call's arguments fired `wait` after that call,
and that call ends a quiet window: every other call is either no later
than it or no earlier than its fire time. -/
theorem debRun_quiet {α : Type} (wait : Nat) (l : List (Nat × α))
    (hs : l.Pairwise (fun p q => p.1 ≤ q.1)) :
    ∀ u a, (u, a) ∈ debRun wait l →
      ∃ t, (t, a) ∈ l ∧ u = t + wait ∧
        ∀ t' a', (t', a') ∈ l → t' ≤ t ∨ t + wait ≤ t' := by
  induction l with
  | nil =>
    intro u a h
    simp [debRun] at h
  | cons x l ih =>
    cases l with
    | nil =>
      obtain ⟨t0, a0⟩ := x
      intro u a h
      simp only [debRun, List.mem_singleton, Prod.mk.injEq] at h
      obtain ⟨hu, ha⟩ := h
      subst hu
      subst ha
      refine ⟨t0, by simp, rfl, ?_⟩
      intro t' a' h'
      simp only [List.mem_singleton, Prod.mk.injEq] at h'
      exact Or.inl (le_of_eq h'.1)
    | cons y rest =>
      obtain ⟨t0, a0⟩ := x
      obtain ⟨t1, a1⟩ := y
      have hs' : ((t1, a1) :: rest).Pairwise (fun p q => p.1 ≤ q.1) :=
        (List.pairwise_cons.1 hs).2
      have hhead : ∀ p ∈ (t1, a1) :: rest, t0 ≤ p.1 :=
        (List.pairwise_cons.1 hs).1
      have htail : ∀ u a, (u, a) ∈ debRun wait ((t1, a1) :: rest) →
          ∃ t, (t, a) ∈ (t0, a0) :: (t1, a1) :: rest ∧ u = t + wait ∧
            ∀ t' a', (t', a') ∈ (t0, a0) :: (t1, a1) :: rest →
              t' ≤ t ∨ t + wait ≤ t' := by
        intro u a h
        obtain ⟨t, htm, hu, hq⟩ := ih hs' u a h
        refine ⟨t, List.mem_cons_of_mem _ htm, hu, ?_⟩
        intro t' a' h'
        rcases List.mem_cons.1 h' with h1 | h2
        · have ht0 : t' = t0 := congrArg Prod.fst h1
          have ht1 : t0 ≤ t := hhead (t, a) htm
          exact Or.inl (by omega)
        · exact hq t' a' h2
      intro u a h
      simp only [debRun] at h
      by_cases hc : t0 + wait ≤ t1
      · rw [if_pos hc] at h
        rcases List.mem_cons.1 h with h1 | h2
        · obtain ⟨hu, ha⟩ := Prod.mk.injEq .. ▸ h1
          subst ha
          refine ⟨t0, by simp, hu, ?_⟩
          intro t' a' h'
          rcases List.mem_cons.1 h' with h1' | h2'
          · exact Or.inl (le_of_eq (congrArg Prod.fst h1'))
          · rcases List.mem_cons.1 h2' with h1'' | h2''
            · have : t' = t1 := congrArg Prod.fst h1''
              exact Or.inr (by omega)
            · have h1t : t1 ≤ t' := (List.pairwise_cons.1 hs').1 (t', a') h2''
              exact Or.inr (by omega)
        · exact htail u a h2
      · rw [if_neg hc] at h
        exact htail u a h

/-- C9: the `debounce` wrapper has trailing-edge semantics: over any
chronological call stream, it executes the wrapped function at most once
per call, every execution fires exactly `wait` after some call that ends a
quiet window (no other call falls strictly inside that window), carrying
that call's arguments, and the final execution carries the arguments of
the most recent call. -/
theorem debounce_trailing {α : Type} (wait : Nat) (l : List (Nat × α))
    (hs : l.Pairwise (fun p q => p.1 ≤ q.1)) :
    (debRun wait l).length ≤ l.length ∧
    (∀ u a, (u, a) ∈ debRun wait l →
      ∃ t, (t, a) ∈ l ∧ u = t + wait ∧
        ∀ t' a', (t', a') ∈ l → t' ≤ t ∨ t + wait ≤ t') ∧
    (∀ t a, l.getLast? = some (t, a) →
      (debRun wait l).getLast? = some (t + wait, a)) :=
  ⟨debRun_length_le wait l, debRun_quiet wait l hs,
    fun t a h => debRun_getLast wait l t a h⟩

/-- C9 witness: three calls, the middle one inside the first one's wait
window. -/
theorem debounce_trailing_witness :
    ([((0 : Nat), "x"), (30, "y"), (200, "z")].Pairwise
        (fun p q => p.1 ≤ q.1)) ∧
    ((debRun 100 [((0 : Nat), "x"), (30, "y"), (200, "z")]).length ≤
        ([((0 : Nat), "x"), (30, "y"), (200, "z")] : List (Nat × String)).length ∧
      (∀ u a, (u, a) ∈ debRun 100 [((0 : Nat), "x"), (30, "y"), (200, "z")] →
        ∃ t, (t, a) ∈ [((0 : Nat), "x"), (30, "y"), (200, "z")] ∧ u = t + 100 ∧
          ∀ t' a', (t', a') ∈ [((0 : Nat), "x"), (30, "y"), (200, "z")] →
            t' ≤ t ∨ t + 100 ≤ t') ∧
      (∀ t a, ([((0 : Nat), "x"), (30, "y"), (200, "z")] : List (Nat × String)).getLast? = some (t, a) →
        (debRun 100 [((0 : Nat), "x"), (30, "y"), (200, "z")]).getLast? = some (t + 100, a))) :=
  ⟨by decide, debounce_trailing 100 _ (by decide)⟩

/-- C8: whenever the resize-event stream settles at a viewport width above
768 (for any starting menu state, in particular an open one), the debounced
resize listener's final firing invokes `closeMobileMenu`, leaving the menu
closed: attribute `'false'`, class absent, scroll lock cleared. -/
theorem resize_closes_menu (events : List (Nat × Int)) (t : Nat) (w : Int)
    (m : MenuState) (hlast : events.getLast? = some (t, w)) (hw : w > 768) :
    resizePipeline events m = closeMobileMenu m ∧
    (resizePipeline events m).ariaExpanded = "false" ∧
    (resizePipeline events m).menuActive = false ∧
    (resizePipeline events m).bodyOverflow = "" := by
  have hrl : (debRun 250 events).getLast? = some (t + 250, w) :=
    debRun_getLast 250 events t w hlast
  have hsplit : (debRun 250 events).dropLast ++ [(t + 250, w)] = debRun 250 events :=
    List.dropLast_append_getLast? _ hrl
  have hmain : resizePipeline events m = MenuState.mk "false" false "" := by
    unfold resizePipeline
    rw [← hsplit, List.foldl_append]
    show resizeHandler w _ = _
    unfold resizeHandler
    rw [if_pos hw]
    rfl
  exact ⟨hmain, by rw [hmain], by rw [hmain], by rw [hmain]⟩

/-- C8 witness: the spec's scenario, width 600 then 900 with the menu
open. -/
theorem resize_closes_menu_witness :
    ([((0 : Nat), (600 : Int)), (10, 900)] : List (Nat × Int)).getLast? =
      some (10, 900) ∧ (900 : Int) > 768 ∧
    (resizePipeline [(0, 600), (10, 900)] ⟨"true", true, "hidden"⟩ =
        closeMobileMenu ⟨"true", true, "hidden"⟩ ∧
      (resizePipeline [(0, 600), (10, 900)] ⟨"true", true, "hidden"⟩).ariaExpanded = "false" ∧
      (resizePipeline [(0, 600), (10, 900)] ⟨"true", true, "hidden"⟩).menuActive = false ∧
      (resizePipeline [(0, 600), (10, 900)] ⟨"true", true, "hidden"⟩).bodyOverflow = "") :=
  ⟨by decide, by decide, resize_closes_menu _ 10 900 _ (by decide) (by decide)⟩

/-- C10 witness: clicking `#contact` on a page with no `contact` element. -/
theorem anchorClickHandler_missing_target_witness :
    ("#contact" : String).data.head? = some '#' ∧ ("#contact" : String) ≠ "#" ∧
    querySelectorFragment ⟨[⟨"home", 100⟩], 60⟩ "#contact" = none ∧
    anchorClickHandler ⟨[⟨"home", 100⟩], 60⟩ "#contact"
        ⟨0, "#home", ⟨"true", true, "hidden"⟩⟩ =
      (⟨0, "#home", ⟨"true", true, "hidden"⟩⟩, true) :=
  ⟨by decide, by decide, by decide,
    anchorClickHandler_missing_target _ _ "#contact" (by decide) (by decide)
      (by decide)⟩

end Portfolio
